import Mathlib

/-!
Verification of the Image-to-Recipe pipeline (src/backend/api/views.py).

The module under verification consists of a single Django view `analyze_images`
and a helper class `ImageAnalyzer` with four static methods:
`validate_image`, `encode_image_to_base64`, `analyze_ingredients`,
`generate_recipes`.  We embed the pure logic directly; the external
collaborators (PIL image decoding, the OpenAI chat-completion client) are
abstracted as function parameters (a byte-stream decoder, and two oracles
returning either a reply text or an exception message), matching the spec's
treatment of them as capabilities.

Python's `json.loads` (strict mode, as called by the module) is embedded as
an executable recursive-descent scanner `json_loads` over the reply text.
-/

namespace RecipeFinder

/-- JSON values as produced by `json.loads`.  Number literals keep their
lexeme (the module never does arithmetic on them); object members keep
source order, including duplicates. -/
inductive Json where
  | null
  | bool (b : Bool)
  | num (lexeme : String)
  | str (s : String)
  | arr (elems : List Json)
  | obj (members : List (String × Json))

/-- The opening curly bracket character. -/
def lbrace : Char := Char.ofNat 123

/-- The closing curly bracket character. -/
def rbrace : Char := Char.ofNat 125

/-- The whitespace characters accepted by the `json` module between tokens
(space, tab, newline, carriage return). -/
def isJsonWs (c : Char) : Bool :=
  c = ' ' || c = Char.ofNat 9 || c = Char.ofNat 10 || c = Char.ofNat 13

/-- Drop leading JSON whitespace. -/
def skipWs : List Char → List Char
  | [] => []
  | c :: cs => if isJsonWs c then skipWs cs else c :: cs

/-- Value of a hexadecimal digit, if any. -/
def hexVal (c : Char) : Option Nat :=
  if '0' ≤ c ∧ c ≤ '9' then some (c.toNat - 48)
  else if 'a' ≤ c ∧ c ≤ 'f' then some (c.toNat - 87)
  else if 'A' ≤ c ∧ c ≤ 'F' then some (c.toNat - 55)
  else none

/-- Scan the body of a JSON string literal (after the opening quote), in
strict mode: raw control characters are rejected, the standard escapes and
`\uXXXX` are decoded (an unpaired surrogate code unit maps to the default
character; the reply texts examined by the claims use no `\u` escapes).
Returns the decoded characters and the input after the closing quote. -/
def scanStringBody : Nat → List Char → Option (List Char × List Char)
  | 0, _ => none
  | _, [] => none
  | fuel + 1, c :: cs =>
    if c = '\x22' then some ([], cs)
    else if c = '\\' then
      match cs with
      | [] => none
      | e :: cs2 =>
        if e = 'u' then
          match cs2 with
          | h1 :: h2 :: h3 :: h4 :: cs3 =>
            match hexVal h1, hexVal h2, hexVal h3, hexVal h4 with
            | some a, some b, some c3, some d =>
              (scanStringBody fuel cs3).map
                (fun r => (Char.ofNat (a * 4096 + b * 256 + c3 * 16 + d) :: r.1, r.2))
            | _, _, _, _ => none
          | _ => none
        else
          match
            (if e = '\x22' ∨ e = '\\' ∨ e = '/' then some e
             else if e = 'b' then some (Char.ofNat 8)
             else if e = 'f' then some (Char.ofNat 12)
             else if e = 'n' then some (Char.ofNat 10)
             else if e = 'r' then some (Char.ofNat 13)
             else if e = 't' then some (Char.ofNat 9)
             else none) with
          | some d => (scanStringBody fuel cs2).map (fun r => (d :: r.1, r.2))
          | none => none
    else if c.toNat < 32 then none
    else (scanStringBody fuel cs).map (fun r => (c :: r.1, r.2))

/-- Split off a maximal run of decimal digits. -/
def spanDigits (l : List Char) : List Char × List Char :=
  (l.takeWhile (fun c => c.isDigit), l.dropWhile (fun c => c.isDigit))

/-- Optional fractional part `.[0-9]+` of a JSON number. -/
def scanFrac (l : List Char) : Option (List Char × List Char) :=
  match l with
  | '.' :: rest =>
    match spanDigits rest with
    | ([], _) => none
    | (ds, r) => some ('.' :: ds, r)
  | _ => some ([], l)

/-- Optional exponent part `[eE][+-]?[0-9]+` of a JSON number. -/
def scanExp (l : List Char) : Option (List Char × List Char) :=
  match l with
  | c :: rest =>
    if c = 'e' ∨ c = 'E' then
      match rest with
      | s :: rest2 =>
        if s = '+' ∨ s = '-' then
          match spanDigits rest2 with
          | ([], _) => none
          | (ds, r) => some (c :: s :: ds, r)
        else
          match spanDigits rest with
          | ([], _) => none
          | (ds, r) => some (c :: ds, r)
      | [] => none
    else some ([], l)
  | [] => some ([], [])

/-- Integer part `0|[1-9][0-9]*` of a JSON number. -/
def scanIntPart (l : List Char) : Option (List Char × List Char) :=
  match l with
  | c :: cs =>
    if c = '0' then some (['0'], cs)
    else if c.isDigit then
      match spanDigits cs with
      | (ds, r) => some (c :: ds, r)
    else none
  | [] => none

/-- Scan a JSON number literal `-?(0|[1-9][0-9]*)(\.[0-9]+)?([eE][+-]?[0-9]+)?`,
keeping the lexeme. -/
def scanNumber (l : List Char) : Option (Json × List Char) :=
  match (match l with
         | '-' :: rest => (['-'], rest)
         | _ => (([] : List Char), l)) with
  | (sign, l1) =>
    match scanIntPart l1 with
    | none => none
    | some (ip, r1) =>
      match scanFrac r1 with
      | none => none
      | some (fp, r2) =>
        match scanExp r2 with
        | none => none
        | some (ep, r3) => some (.num (String.mk (sign ++ ip ++ fp ++ ep)), r3)

/-- `some rest` when `tok` heads the input. -/
def stripTok (tok : List Char) (l : List Char) : Option (List Char) :=
  if l.take tok.length = tok then some (l.drop tok.length) else none

mutual

/-- Scan one JSON value (after skipping leading whitespace), fuel-bounded.
With fuel exceeding the input length the bound is never hit, since every
recursive call consumes at least one character first.  Accepts exactly what
`json.loads` accepts, including the non-standard constants `NaN`,
`Infinity` and `-Infinity` (kept as number lexemes). -/
def scanValue : Nat → List Char → Option (Json × List Char)
  | 0, _ => none
  | fuel + 1, input =>
    match skipWs input with
    | [] => none
    | c :: cs =>
      if c = '\x22' then
        match scanStringBody (cs.length + 1) cs with
        | some (s, r) => some (.str (String.mk s), r)
        | none => none
      else if c = '[' then
        match skipWs cs with
        | ']' :: r => some (.arr [], r)
        | _ =>
          match scanValue fuel cs with
          | some (v, r) =>
            match scanArrayTail fuel r with
            | some (vs, r2) => some (.arr (v :: vs), r2)
            | none => none
          | none => none
      else if c = lbrace then
        if (skipWs cs).head? = some rbrace then some (.obj [], (skipWs cs).tail)
        else
          match scanMember fuel cs with
          | some (kv, r2) =>
            match scanObjectTail fuel r2 with
            | some (kvs, r3) => some (.obj (kv :: kvs), r3)
            | none => none
          | none => none
      else if c = 't' then
        match stripTok ['t', 'r', 'u', 'e'] (c :: cs) with
        | some r => some (.bool true, r)
        | none => none
      else if c = 'f' then
        match stripTok ['f', 'a', 'l', 's', 'e'] (c :: cs) with
        | some r => some (.bool false, r)
        | none => none
      else if c = 'n' then
        match stripTok ['n', 'u', 'l', 'l'] (c :: cs) with
        | some r => some (.null, r)
        | none => none
      else if c = 'N' then
        match stripTok ['N', 'a', 'N'] (c :: cs) with
        | some r => some (.num "NaN", r)
        | none => none
      else if c = 'I' then
        match stripTok ['I', 'n', 'f', 'i', 'n', 'i', 't', 'y'] (c :: cs) with
        | some r => some (.num "Infinity", r)
        | none => none
      else if c = '-' then
        match stripTok ['-', 'I', 'n', 'f', 'i', 'n', 'i', 't', 'y'] (c :: cs) with
        | some r => some (.num "-Infinity", r)
        | none => scanNumber (c :: cs)
      else if c.isDigit then scanNumber (c :: cs)
      else none

/-- After the first element of an array: `,` element … `]`. -/
def scanArrayTail : Nat → List Char → Option (List Json × List Char)
  | 0, _ => none
  | fuel + 1, input =>
    match skipWs input with
    | ']' :: r => some ([], r)
    | ',' :: r =>
      match scanValue fuel r with
      | some (v, r2) =>
        match scanArrayTail fuel r2 with
        | some (vs, r3) => some (v :: vs, r3)
        | none => none
      | none => none
    | _ => none

/-- One `"key": value` member of an object. -/
def scanMember : Nat → List Char → Option ((String × Json) × List Char)
  | 0, _ => none
  | fuel + 1, input =>
    match skipWs input with
    | c :: cs =>
      if c = '\x22' then
        match scanStringBody (cs.length + 1) cs with
        | some (k, r) =>
          match skipWs r with
          | ':' :: r2 =>
            match scanValue fuel r2 with
            | some (v, r3) => some ((String.mk k, v), r3)
            | none => none
          | _ => none
        | none => none
      else none
    | [] => none

/-- After the first member of an object: `,` member … closing bracket. -/
def scanObjectTail : Nat → List Char → Option (List (String × Json) × List Char)
  | 0, _ => none
  | fuel + 1, input =>
    match skipWs input with
    | ',' :: r =>
      match scanMember fuel r with
      | some (kv, r2) =>
        match scanObjectTail fuel r2 with
        | some (kvs, r3) => some (kv :: kvs, r3)
        | none => none
      | none => none
    | c :: r => if c = rbrace then some ([], r) else none
    | [] => none

end

/-- Embedding of Python `json.loads` (strict mode): one value, optionally
surrounded by whitespace; anything else raises `JSONDecodeError`, modelled
as `none`. -/
def json_loads (s : String) : Option Json :=
  match scanValue (s.data.length + 1) s.data with
  | some (v, rest) => if skipWs rest = [] then some v else none
  | none => none

/-! ### Python string primitives used by the extraction heuristic -/

/-- Embedding of Python `str.find(ch)`: index of the first occurrence,
`-1` if absent. -/
def strFind (s : String) (c : Char) : Int :=
  match s.data.findIdx? (fun x => x = c) with
  | some i => (i : Int)
  | none => -1

/-- Embedding of Python `str.rfind(ch)`: index of the last occurrence,
`-1` if absent. -/
def strRfind (s : String) (c : Char) : Int :=
  match s.data.reverse.findIdx? (fun x => x = c) with
  | some i => ((s.data.length - 1 - i : Nat) : Int)
  | none => -1

/-- Embedding of the Python slice `s[a:b]` for the index values arising at
the call sites (both non-negative, `b` at most the length; an empty slice
results when `b ≤ a`, as in Python). -/
def pySlice (s : String) (a b : Int) : String :=
  String.mk ((s.data.drop a.toNat).take (b.toNat - a.toNat))

/-! ### Constant payloads of views.py -/

/-- The fixed fallback list of the ingredient stage
(views.py line 121). -/
def ingredientsFallback : Json :=
  .arr [.obj [("name", .str "Unable to identify ingredients"), ("confidence", .num "0.1")]]

/-- The fixed fallback list of the recipe stage (views.py lines 177-183). -/
def recipesFallback : Json :=
  .arr [.obj [("title", .str "Unable to generate recipes"),
              ("usedIngredients", .arr []),
              ("instructions", .arr [.str "Recipe generation failed"]),
              ("difficulty", .str "easy"),
              ("timeMinutes", .num "0")]]

/-- The fixed instruction text of the ingredient-extraction request
(views.py line 73). -/
def ingredientsInstruction : String :=
  "Analyze these images and identify all cooking ingredients you can see. Return a JSON array of objects with \x27name\x27 and \x27confidence\x27 fields. Only include ingredients that are clearly visible and identifiable. Be specific about the ingredient names (e.g., \x27fresh tomatoes\x27 not just \x27tomatoes\x27)."

/-- The recipe-generation prompt (views.py lines 135-146): the f-string
with the comma-joined ingredient names interpolated, newlines and the
12-space indentation as in the source. -/
def buildRecipePrompt (ingredients_text : String) : String :=
  "\n            Based on these ingredients: " ++ ingredients_text ++
  "\n            \n            Generate 3 different recipes that can be made with these ingredients. For each recipe, return a JSON object with:\n            - title: Recipe name\n            - usedIngredients: Array of ingredients from the provided list that are used\n            - instructions: Array of step-by-step cooking instructions\n            - difficulty: \x22easy\x22, \x22medium\x22, or \x22hard\x22\n            - timeMinutes: Estimated cooking time in minutes\n            \n            Return only a JSON array of 3 recipe objects, no other text.\n            "

/-! ### Response-text extraction (views.py lines 105-121 and 162-183) -/

/-- The JSON-extraction step of `analyze_ingredients` (lines 106-121):
take the slice from the first `[` to the last `]` and feed it to
`json.loads`; if no such pair of brackets exists, feed the entire reply
instead; a `JSONDecodeError` from whichever call was made is caught and
answered with the fixed fallback list. -/
def parseIngredientsResponse (content : String) : Json :=
  if strFind content '[' ≠ -1 ∧ strRfind content ']' + 1 ≠ 0 then
    match json_loads (pySlice content (strFind content '[') (strRfind content ']' + 1)) with
    | some ingredients => ingredients
    | none => ingredientsFallback
  else
    match json_loads content with
    | some ingredients => ingredients
    | none => ingredientsFallback

/-- The JSON-extraction step of `generate_recipes` (lines 163-183):
same heuristic, recipe-stage fallback. -/
def parseRecipesResponse (content : String) : Json :=
  if strFind content '[' ≠ -1 ∧ strRfind content ']' + 1 ≠ 0 then
    match json_loads (pySlice content (strFind content '[') (strRfind content ']' + 1)) with
    | some recipes => recipes
    | none => recipesFallback
  else
    match json_loads content with
    | some recipes => recipes
    | none => recipesFallback

/-! ### Uploaded files and validation (views.py lines 36-63) -/

/-- An in-memory uploaded file: the attributes `validate_image` and
`encode_image_to_base64` read (`size`, `content_type`, `name`) plus the
raw byte stream.  The read position of the stream is passed separately,
since `seek` mutates it. -/
structure UploadedFile where
  name : String
  size : Nat
  content_type : String
  data : List Nat
deriving DecidableEq

/-- The content-type allow-list of `validate_image` (line 44). -/
def allowed_types : List String := ["image/jpeg", "image/png", "image/bmp"]

/-- Embedding of `ImageAnalyzer.validate_image` (lines 36-56), returning
the boolean result together with the stream position it leaves behind.
PIL is an external collaborator: `pilVerify` abstracts whether
`Image.open` + `img.verify()` succeeds on the byte stream.  On the success
path the source runs `file.seek(0)` before returning `True`; when PIL
raises, the `except` returns `False` with the position wherever PIL
stopped reading, modelled as the end of the stream (no claim depends on
that value). -/
def validate_image (maxUploadSize : Nat) (pilVerify : List Nat → Bool)
    (file : UploadedFile) (pos : Nat) : Bool × Nat :=
  if file.size > maxUploadSize then (false, pos)
  else if file.content_type ∉ allowed_types then (false, pos)
  else if pilVerify file.data then (true, 0)
  else (false, file.data.length)

/-- Reading the stream of `file` from position `pos` to the end. -/
def readFrom (file : UploadedFile) (pos : Nat) : List Nat :=
  file.data.drop pos

/-! ### Base64 (the `base64.b64encode` call of line 63) -/

/-- The base64 alphabet. -/
def b64Alphabet : List Char :=
  "ABCDEFGHIJKLMNOPQRSTUVWXYZabcdefghijklmnopqrstuvwxyz0123456789+/".data

/-- Character for a 6-bit group. -/
def b64Char (n : Nat) : Char := b64Alphabet.getD n 'A'

/-- Standard base64 encoding of a byte list, with `=` padding. -/
def b64encode : List Nat → List Char
  | [] => []
  | [a] => [b64Char (a / 4), b64Char (a % 4 * 16), '=', '=']
  | [a, b] => [b64Char (a / 4), b64Char (a % 4 * 16 + b / 16), b64Char (b % 16 * 4), '=']
  | a :: b :: c :: rest =>
    b64Char (a / 4) :: b64Char (a % 4 * 16 + b / 16) ::
      b64Char (b % 16 * 4 + c / 64) :: b64Char (c % 64) :: b64encode rest

/-- Embedding of `ImageAnalyzer.encode_image_to_base64` (lines 58-63):
`file.seek(0)`, read the whole stream, base64-encode it. -/
def encode_image_to_base64 (file : UploadedFile) : String :=
  String.mk (b64encode (readFrom file 0))

/-! ### The two model-call stages (views.py lines 65-187)

The OpenAI client is an external collaborator.  Each stage is embedded as
a function of a call oracle that maps the request content the stage builds
to either the reply text (`Except.ok`) or the message of the exception the
call raised (`Except.error`).  Besides its `Except` result each stage
returns the list of outbound calls it made, so that the claims about
call ordering and absence are statable. -/

/-- One part of the multimodal message content of the ingredient request. -/
inductive ContentPart where
  | text (t : String)
  | image_url (url : String)
deriving DecidableEq

/-- An outbound call to the completion service, recorded with the content
it carried. -/
inductive Call where
  | ingredients (content : List ContentPart)
  | recipes (prompt : String)
deriving DecidableEq

/-- The message content built by `analyze_ingredients` (lines 70-84): the
fixed instruction followed by one `image_url` part per image, each a data
URL with the hardcoded `image/jpeg` MIME label. -/
def buildIngredientsContent (images : List String) : List ContentPart :=
  .text ingredientsInstruction ::
    images.map (fun image_data => .image_url ("data:image/jpeg;base64," ++ image_data))

/-- Embedding of `ImageAnalyzer.analyze_ingredients` (lines 65-125): build
the content, make the call; an exception from the call is caught by the
outer `except` and re-raised wrapped (line 125); a reply is handed to the
extraction step, which never raises. -/
def analyze_ingredients (images : List String)
    (chatVision : List ContentPart → Except String String) :
    Except String Json × List Call :=
  match chatVision (buildIngredientsContent images) with
  | .error e => (.error ("Failed to analyze images: " ++ e), [.ingredients (buildIngredientsContent images)])
  | .ok content => (.ok (parseIngredientsResponse content), [.ingredients (buildIngredientsContent images)])

/-- Models `ingredient_names = [ing[\x22name\x22] for ing in ingredients]`
followed by `\x22, \x22.join(ingredient_names)` (lines 132-133): the
comprehension requires the stage-1 result to be a JSON array whose
elements are objects binding `name` (for duplicate keys `json.loads`
keeps the last binding), and the join requires each bound value to be a
string; any other shape raises in Python (KeyError / TypeError), caught
by the stage and wrapped.  The error strings abstract the CPython
exception text; no claim depends on them. -/
def getName (j : Json) : Except String String :=
  match j with
  | .obj kvs =>
    match kvs.reverse.find? (fun kv => kv.1 = "name") with
    | some (_, .str s) => .ok s
    | some _ => .error "sequence item 0: expected str instance"
    | none => .error "\x27name\x27"
  | _ => .error "indices must be integers"

/-- `getName` mapped over the elements of the stage-1 array, first error
wins (the comprehension raises at the first bad element). -/
def getNamesList : List Json → Except String (List String)
  | [] => .ok []
  | j :: rest =>
    match getName j with
    | .error e => .error e
    | .ok n =>
      match getNamesList rest with
      | .error e => .error e
      | .ok ns => .ok (n :: ns)

/-- The ingredient names extracted by `generate_recipes` from its input
(line 132); iterating a non-array raises. -/
def getNames : Json → Except String (List String)
  | .arr items => getNamesList items
  | _ => .error "object is not iterable"

/-- Embedding of `ImageAnalyzer.generate_recipes` (lines 127-187): extract
the names (a raise here is caught and wrapped before any call is made),
build the prompt, make the call; a call exception is wrapped (line 187);
a reply goes through the extraction step. -/
def generate_recipes (ingredients : Json)
    (chatText : String → Except String String) :
    Except String Json × List Call :=
  match getNames ingredients with
  | .error e => (.error ("Failed to generate recipes: " ++ e), [])
  | .ok names =>
    match chatText (buildRecipePrompt (String.intercalate ", " names)) with
    | .error e =>
      (.error ("Failed to generate recipes: " ++ e),
       [.recipes (buildRecipePrompt (String.intercalate ", " names))])
    | .ok content =>
      (.ok (parseRecipesResponse content),
       [.recipes (buildRecipePrompt (String.intercalate ", " names))])

/-! ### The request handler (views.py lines 189-248) -/

/-- The externally supplied configuration the view reads:
whether `settings.OPENAI_API_KEY` is set (only its truthiness is used)
and `settings.MAX_UPLOAD_SIZE`. -/
structure Settings where
  OPENAI_API_KEY : Bool
  MAX_UPLOAD_SIZE : Nat
deriving DecidableEq

/-- The HTTP responses the view produces: `Response(body)` with the
default 200 status, or `Response(\x7b\x22detail\x22: msg\x7d)` with
status 400 or 500. -/
inductive Resp where
  | ok (body : Json)
  | badRequest (detail : String)
  | serverError (detail : String)

/-- Whether a response is a 400 bad-request response. -/
def Resp.isBadRequest : Resp → Bool
  | .badRequest _ => true
  | _ => false

/-- Embedding of the view `analyze_images` (lines 189-248), returning the
response together with the outbound calls made, in order.  `files` is the
upload set in iteration order.  The validation loop returns on the first
invalid file; on a fully valid set the count check runs, then encoding and
the two stages; an error escaping a stage is caught by the outermost
`except` and answered with a 500 (lines 243-248). -/
def analyze_images (s : Settings) (pilVerify : List Nat → Bool)
    (chatVision : List ContentPart → Except String String)
    (chatText : String → Except String String)
    (files : List UploadedFile) : Resp × List Call :=
  if s.OPENAI_API_KEY = false then
    (.serverError "OpenAI API key not configured", [])
  else if files = [] then
    (.badRequest "No images provided", [])
  else
    match files.find? (fun f => !(validate_image s.MAX_UPLOAD_SIZE pilVerify f 0).1) with
    | some file =>
      (.badRequest ("Invalid file: " ++ file.name ++ ". Must be JPG, PNG, or BMP under 10MB"), [])
    | none =>
      if files.length > 3 then
        (.badRequest "Maximum 3 images allowed", [])
      else
        match analyze_ingredients (files.map encode_image_to_base64) chatVision with
        | (.error e, calls1) => (.serverError ("Analysis failed: " ++ e), calls1)
        | (.ok ingredients, calls1) =>
          match generate_recipes ingredients chatText with
          | (.error e, calls2) => (.serverError ("Analysis failed: " ++ e), calls1 ++ calls2)
          | (.ok recipes, calls2) =>
            (.ok (.obj [("ingredients", ingredients), ("recipes", recipes)]), calls1 ++ calls2)

/-! ## Theorems -/

/-- Both stage extractions make exactly one call, carrying the content
they built. -/
theorem analyze_ingredients_snd (images : List String)
    (chatVision : List ContentPart → Except String String) :
    (analyze_ingredients images chatVision).2 =
      [.ingredients (buildIngredientsContent images)] := by
  unfold analyze_ingredients
  cases chatVision (buildIngredientsContent images) <;> rfl

/-- C2: for every reply containing both brackets whose first-`[` to
last-`]` substring parses as JSON, the extraction step returns exactly the
parsed value. -/
theorem C2_substring_parse_returned (c : String) (v : Json)
    (h1 : strFind c '[' ≠ -1) (h2 : strRfind c ']' ≠ -1)
    (h3 : json_loads (pySlice c (strFind c '[') (strRfind c ']' + 1)) = some v) :
    parseIngredientsResponse c = v := by
  unfold parseIngredientsResponse
  rw [if_pos ⟨h1, fun h => h2 (by omega)⟩, h3]

/-- C2 witness: the reply `Sure! [...] Hope that helps` yields the
one-element egg array. -/
theorem C2_substring_parse_returned_witness :
    parseIngredientsResponse "Sure! [\x7b\x22name\x22:\x22egg\x22,\x22confidence\x22:0.9\x7d] Hope that helps" =
      Json.arr [Json.obj [("name", Json.str "egg"), ("confidence", Json.num "0.9")]] :=
  C2_substring_parse_returned _ _ (by decide) (by decide) (by rfl)

/-- C1 counterexample: for the reply `"a[b]"` both brackets are present,
the bracket substring `[b]` is not valid JSON, and the entire reply is
valid JSON — yet the extraction step returns the fallback, so the whole
reply was never parsed and the fallback is not returned only when both
parse attempts fail. -/
theorem C1_claim_counterexample :
    strFind "\x22a[b]\x22" '[' ≠ -1 ∧ strRfind "\x22a[b]\x22" ']' ≠ -1 ∧
    json_loads (pySlice "\x22a[b]\x22" (strFind "\x22a[b]\x22" '[')
      (strRfind "\x22a[b]\x22" ']' + 1)) = none ∧
    json_loads "\x22a[b]\x22" = some (Json.str "a[b]") ∧
    parseIngredientsResponse "\x22a[b]\x22" = ingredientsFallback :=
  ⟨by decide, by decide, by rfl, by rfl, by rfl⟩

/-- C1 amended: when the reply contains both `[` and `]` but the
substring from the first `[` to the last `]` is not valid JSON, the
extraction step returns the stage fallback directly, without attempting
to parse the entire reply; the whole-reply parse is attempted only when
the reply lacks `[` or lacks `]`. -/
theorem C1_substring_failure_falls_back_directly (c : String) :
    (strFind c '[' ≠ -1 → strRfind c ']' ≠ -1 →
      json_loads (pySlice c (strFind c '[') (strRfind c ']' + 1)) = none →
      parseIngredientsResponse c = ingredientsFallback ∧
      parseRecipesResponse c = recipesFallback) ∧
    (strFind c '[' = -1 ∨ strRfind c ']' = -1 →
      parseIngredientsResponse c = (json_loads c).getD ingredientsFallback ∧
      parseRecipesResponse c = (json_loads c).getD recipesFallback) := by
  constructor
  · intro h1 h2 h3
    have hc : strFind c '[' ≠ -1 ∧ strRfind c ']' + 1 ≠ 0 := ⟨h1, fun h => h2 (by omega)⟩
    constructor
    · unfold parseIngredientsResponse
      rw [if_pos hc, h3]
    · unfold parseRecipesResponse
      rw [if_pos hc, h3]
  · intro h
    have hc : ¬(strFind c '[' ≠ -1 ∧ strRfind c ']' + 1 ≠ 0) := by
      rcases h with h | h
      · exact fun hh => hh.1 h
      · exact fun hh => hh.2 (by omega)
    constructor
    · unfold parseIngredientsResponse
      rw [if_neg hc]
      cases json_loads c <;> rfl
    · unfold parseRecipesResponse
      rw [if_neg hc]
      cases json_loads c <;> rfl

/-- C1 amended, witness: `[oops]` has both brackets, its bracket substring
is invalid JSON, and both stages fall back. -/
theorem C1_substring_failure_falls_back_directly_witness :
    parseIngredientsResponse "[oops]" = ingredientsFallback ∧
    parseRecipesResponse "[oops]" = recipesFallback :=
  (C1_substring_failure_falls_back_directly "[oops]").1 (by decide) (by decide) (by rfl)

/-- C4: when neither the bracket-substring parse (where applicable) nor
the whole-reply parse can succeed, neither stage raises: the ingredient
stage returns exactly its fixed fallback list and the recipe stage
returns exactly its fixed failure recipe, and at the `Except` level both
stages return `ok` of the fallback rather than an error. -/
theorem C4_parse_failure_masked_by_fallbacks (c : String)
    (h1 : strFind c '[' ≠ -1 → strRfind c ']' ≠ -1 →
      json_loads (pySlice c (strFind c '[') (strRfind c ']' + 1)) = none)
    (h2 : json_loads c = none) :
    parseIngredientsResponse c = ingredientsFallback ∧
    parseRecipesResponse c = recipesFallback ∧
    (∀ images chatVision, chatVision (buildIngredientsContent images) = Except.ok c →
      (analyze_ingredients images chatVision).1 = Except.ok ingredientsFallback) ∧
    (∀ ingredients names chatText, getNames ingredients = Except.ok names →
      chatText (buildRecipePrompt (String.intercalate ", " names)) = Except.ok c →
      (generate_recipes ingredients chatText).1 = Except.ok recipesFallback) := by
  have hing : parseIngredientsResponse c = ingredientsFallback := by
    unfold parseIngredientsResponse
    by_cases hc : strFind c '[' ≠ -1 ∧ strRfind c ']' + 1 ≠ 0
    · rw [if_pos hc, h1 hc.1 (fun h => hc.2 (by omega))]
    · rw [if_neg hc, h2]
  have hrec : parseRecipesResponse c = recipesFallback := by
    unfold parseRecipesResponse
    by_cases hc : strFind c '[' ≠ -1 ∧ strRfind c ']' + 1 ≠ 0
    · rw [if_pos hc, h1 hc.1 (fun h => hc.2 (by omega))]
    · rw [if_neg hc, h2]
  refine ⟨hing, hrec, ?_, ?_⟩
  · intro images chatVision hcall
    unfold analyze_ingredients
    rw [hcall]
    simpa using hing
  · intro ingredients names chatText hnames hcall
    unfold generate_recipes
    simp only [hnames, hcall, hrec]

/-- C4 witness: a bracketless, non-JSON reply makes both stages produce
their fixed fallbacks. -/
theorem C4_parse_failure_masked_by_fallbacks_witness :
    parseIngredientsResponse "no json here" = ingredientsFallback ∧
    parseRecipesResponse "no json here" = recipesFallback :=
  ⟨(C4_parse_failure_masked_by_fallbacks "no json here" (fun h => absurd rfl h) (by rfl)).1,
   (C4_parse_failure_masked_by_fallbacks "no json here" (fun h => absurd rfl h) (by rfl)).2.1⟩

/-- C3: the validator returns `false` exactly when the size exceeds the
configured maximum, or the declared content type is outside the JPEG/PNG/BMP
allow-list, or the byte stream fails structural image decoding; otherwise
it returns `true`. -/
theorem C3_validator_rejects_iff (maxUploadSize : Nat) (pilVerify : List Nat → Bool)
    (file : UploadedFile) (pos : Nat) :
    (validate_image maxUploadSize pilVerify file pos).1 = false ↔
      (maxUploadSize < file.size ∨ file.content_type ∉ allowed_types ∨
        pilVerify file.data = false) := by
  unfold validate_image
  by_cases h1 : file.size > maxUploadSize
  · simp [h1]
  · by_cases h2 : file.content_type ∉ allowed_types
    · simp [h1, h2]
    · by_cases h3 : pilVerify file.data
      · simp [h1, h2, h3]
      · simp [h1, h2, h3]

/-- C9: whenever the validator accepts a file, it leaves the stream
position at 0, wherever it started, so a subsequent read returns the full
byte stream. -/
theorem C9_valid_leaves_stream_at_start (maxUploadSize : Nat) (pilVerify : List Nat → Bool)
    (file : UploadedFile) (pos : Nat)
    (h : (validate_image maxUploadSize pilVerify file pos).1 = true) :
    (validate_image maxUploadSize pilVerify file pos).2 = 0 ∧
    readFrom file (validate_image maxUploadSize pilVerify file pos).2 = file.data := by
  unfold validate_image at h ⊢
  by_cases h1 : file.size > maxUploadSize
  · simp [h1] at h
  · by_cases h2 : file.content_type ∉ allowed_types
    · simp [h1, h2] at h
    · by_cases h3 : pilVerify file.data
      · simp [h1, h2, h3, readFrom]
      · simp [h1, h2, h3] at h

/-- C9 witness: a small JPEG upload validated from stream position 7 ends
with its stream back at 0 and fully readable. -/
theorem C9_valid_leaves_stream_at_start_witness :
    (validate_image 10485760 (fun _ => true)
      ⟨"a.jpg", 3, "image/jpeg", [255, 216, 255]⟩ 7).2 = 0 ∧
    readFrom ⟨"a.jpg", 3, "image/jpeg", [255, 216, 255]⟩
      (validate_image 10485760 (fun _ => true)
        ⟨"a.jpg", 3, "image/jpeg", [255, 216, 255]⟩ 7).2 = [255, 216, 255] :=
  C9_valid_leaves_stream_at_start 10485760 (fun _ => true)
    ⟨"a.jpg", 3, "image/jpeg", [255, 216, 255]⟩ 7 (by decide)

/-- C5: when the API key is not configured, every request is answered with
the 500 configuration-error response and no outbound call is made. -/
theorem C5_missing_key_500_no_calls (s : Settings) (pilVerify : List Nat → Bool)
    (chatVision : List ContentPart → Except String String)
    (chatText : String → Except String String) (files : List UploadedFile)
    (h : s.OPENAI_API_KEY = false) :
    analyze_images s pilVerify chatVision chatText files =
      (.serverError "OpenAI API key not configured", []) := by
  unfold analyze_images
  rw [if_pos h]

/-- C5 witness: a concrete unconfigured run. -/
theorem C5_missing_key_500_no_calls_witness :
    analyze_images ⟨false, 10485760⟩ (fun _ => true) (fun _ => Except.ok "[]")
      (fun _ => Except.ok "[]") [⟨"a.jpg", 3, "image/jpeg", [255, 216, 255]⟩] =
      (.serverError "OpenAI API key not configured", []) :=
  C5_missing_key_500_no_calls ⟨false, 10485760⟩ (fun _ => true) (fun _ => Except.ok "[]")
    (fun _ => Except.ok "[]") [⟨"a.jpg", 3, "image/jpeg", [255, 216, 255]⟩] rfl

/-- C6: with the service configured, a request carrying 4 or more valid
files is answered with a 400 bad-input response and no outbound call is
made. -/
theorem C6_four_valid_files_400_no_calls (s : Settings) (pilVerify : List Nat → Bool)
    (chatVision : List ContentPart → Except String String)
    (chatText : String → Except String String) (files : List UploadedFile)
    (hkey : s.OPENAI_API_KEY = true)
    (h4 : 4 ≤ (files.filter
      (fun f => (validate_image s.MAX_UPLOAD_SIZE pilVerify f 0).1)).length) :
    (analyze_images s pilVerify chatVision chatText files).1.isBadRequest = true ∧
    (analyze_images s pilVerify chatVision chatText files).2 = [] := by
  have hne : files ≠ [] := by
    intro h
    subst h
    simp at h4
  unfold analyze_images
  rw [if_neg (by simp [hkey]), if_neg hne]
  cases hfind : files.find? (fun f => !(validate_image s.MAX_UPLOAD_SIZE pilVerify f 0).1) with
  | some f => exact ⟨rfl, rfl⟩
  | none =>
    have hall : ∀ f ∈ files, (validate_image s.MAX_UPLOAD_SIZE pilVerify f 0).1 = true := by
      intro f hf
      have := List.find?_eq_none.mp hfind f hf
      simpa using this
    have hfilter : files.filter
        (fun f => (validate_image s.MAX_UPLOAD_SIZE pilVerify f 0).1) = files :=
      List.filter_eq_self.mpr (by intro a ha; simpa using hall a ha)
    rw [hfilter] at h4
    rw [if_pos (by omega)]
    exact ⟨rfl, rfl⟩

/-- C6 witness: four valid JPEG uploads are refused with a 400 and zero
outbound calls. -/
theorem C6_four_valid_files_400_no_calls_witness :
    (analyze_images ⟨true, 10485760⟩ (fun _ => true) (fun _ => Except.ok "[]")
      (fun _ => Except.ok "[]")
      [⟨"a.jpg", 3, "image/jpeg", [255, 216, 255]⟩,
       ⟨"b.jpg", 3, "image/jpeg", [255, 216, 255]⟩,
       ⟨"c.jpg", 3, "image/jpeg", [255, 216, 255]⟩,
       ⟨"d.jpg", 3, "image/jpeg", [255, 216, 255]⟩]).1.isBadRequest = true ∧
    (analyze_images ⟨true, 10485760⟩ (fun _ => true) (fun _ => Except.ok "[]")
      (fun _ => Except.ok "[]")
      [⟨"a.jpg", 3, "image/jpeg", [255, 216, 255]⟩,
       ⟨"b.jpg", 3, "image/jpeg", [255, 216, 255]⟩,
       ⟨"c.jpg", 3, "image/jpeg", [255, 216, 255]⟩,
       ⟨"d.jpg", 3, "image/jpeg", [255, 216, 255]⟩]).2 = [] :=
  C6_four_valid_files_400_no_calls ⟨true, 10485760⟩ (fun _ => true) (fun _ => Except.ok "[]")
    (fun _ => Except.ok "[]") _ rfl (by decide)

/-- C7: with the service configured, a request whose upload set contains
an invalid file is answered with the single 400 response naming the first
invalid file in iteration order, and no outbound call, encoding or stage
runs. -/
theorem C7_first_invalid_file_named_400 (s : Settings) (pilVerify : List Nat → Bool)
    (chatVision : List ContentPart → Except String String)
    (chatText : String → Except String String) (files : List UploadedFile)
    (file : UploadedFile)
    (hkey : s.OPENAI_API_KEY = true)
    (hfind : files.find?
      (fun f => !(validate_image s.MAX_UPLOAD_SIZE pilVerify f 0).1) = some file) :
    analyze_images s pilVerify chatVision chatText files =
      (.badRequest ("Invalid file: " ++ file.name ++ ". Must be JPG, PNG, or BMP under 10MB"),
       []) := by
  have hne : files ≠ [] := by
    intro h
    subst h
    simp at hfind
  unfold analyze_images
  rw [if_neg (by simp [hkey]), if_neg hne, hfind]

/-- C7 witness: a GIF upload in second position, behind a valid JPEG, is
the first invalid file and is named in the 400 response; no call is
made. -/
theorem C7_first_invalid_file_named_400_witness :
    analyze_images ⟨true, 10485760⟩ (fun _ => true) (fun _ => Except.ok "[]")
      (fun _ => Except.ok "[]")
      [⟨"a.jpg", 3, "image/jpeg", [255, 216, 255]⟩,
       ⟨"b.gif", 3, "image/gif", [71, 73, 70]⟩] =
      (.badRequest "Invalid file: b.gif. Must be JPG, PNG, or BMP under 10MB", []) :=
  C7_first_invalid_file_named_400 ⟨true, 10485760⟩ (fun _ => true) (fun _ => Except.ok "[]")
    (fun _ => Except.ok "[]")
    [⟨"a.jpg", 3, "image/jpeg", [255, 216, 255]⟩, ⟨"b.gif", 3, "image/gif", [71, 73, 70]⟩]
    ⟨"b.gif", 3, "image/gif", [71, 73, 70]⟩ rfl (by decide)

/-- On a configured service with a non-empty, fully valid upload set of at
most 3 files, the handler reaches the two stages. -/
theorem analyze_images_valid_setup (s : Settings) (pilVerify : List Nat → Bool)
    (chatVision : List ContentPart → Except String String)
    (chatText : String → Except String String) (files : List UploadedFile)
    (hkey : s.OPENAI_API_KEY = true) (hne : files ≠ [])
    (hval : ∀ f ∈ files, (validate_image s.MAX_UPLOAD_SIZE pilVerify f 0).1 = true)
    (hcnt : files.length ≤ 3) :
    analyze_images s pilVerify chatVision chatText files =
      (match analyze_ingredients (files.map encode_image_to_base64) chatVision with
       | (.error e, calls1) => (.serverError ("Analysis failed: " ++ e), calls1)
       | (.ok ingredients, calls1) =>
         match generate_recipes ingredients chatText with
         | (.error e, calls2) => (.serverError ("Analysis failed: " ++ e), calls1 ++ calls2)
         | (.ok recipes, calls2) =>
           (.ok (.obj [("ingredients", ingredients), ("recipes", recipes)]),
            calls1 ++ calls2)) := by
  unfold analyze_images
  have hfind : files.find? (fun f => !(validate_image s.MAX_UPLOAD_SIZE pilVerify f 0).1)
      = none :=
    List.find?_eq_none.mpr (fun f hf => by simp [hval f hf])
  rw [if_neg (by simp [hkey]), if_neg hne, hfind, if_neg (by omega)]

/-- C8: with the pipeline reaching the stages, an exception from either
outbound call is not swallowed: the stage re-raises it wrapped with its
stage prefix, and the handler answers 500 with the original message
embedded in the body; the responses and the calls made are exact. -/
theorem C8_call_failure_wrapped_and_surfaced (s : Settings) (pilVerify : List Nat → Bool)
    (chatVision : List ContentPart → Except String String)
    (chatText : String → Except String String) (files : List UploadedFile)
    (hkey : s.OPENAI_API_KEY = true) (hne : files ≠ [])
    (hval : ∀ f ∈ files, (validate_image s.MAX_UPLOAD_SIZE pilVerify f 0).1 = true)
    (hcnt : files.length ≤ 3) :
    (∀ m, chatVision (buildIngredientsContent (files.map encode_image_to_base64)) =
        Except.error m →
      (analyze_ingredients (files.map encode_image_to_base64) chatVision).1 =
        Except.error ("Failed to analyze images: " ++ m) ∧
      analyze_images s pilVerify chatVision chatText files =
        (.serverError ("Analysis failed: " ++ ("Failed to analyze images: " ++ m)),
         [.ingredients (buildIngredientsContent (files.map encode_image_to_base64))])) ∧
    (∀ reply names m,
      chatVision (buildIngredientsContent (files.map encode_image_to_base64)) =
        Except.ok reply →
      getNames (parseIngredientsResponse reply) = Except.ok names →
      chatText (buildRecipePrompt (String.intercalate ", " names)) = Except.error m →
      (generate_recipes (parseIngredientsResponse reply) chatText).1 =
        Except.error ("Failed to generate recipes: " ++ m) ∧
      analyze_images s pilVerify chatVision chatText files =
        (.serverError ("Analysis failed: " ++ ("Failed to generate recipes: " ++ m)),
         [.ingredients (buildIngredientsContent (files.map encode_image_to_base64)),
          .recipes (buildRecipePrompt (String.intercalate ", " names))])) := by
  have hred := analyze_images_valid_setup s pilVerify chatVision chatText files
    hkey hne hval hcnt
  constructor
  · intro m hcall
    have hstage : analyze_ingredients (files.map encode_image_to_base64) chatVision =
        (.error ("Failed to analyze images: " ++ m),
         [.ingredients (buildIngredientsContent (files.map encode_image_to_base64))]) := by
      unfold analyze_ingredients
      rw [hcall]
    constructor
    · rw [hstage]
    · rw [hred, hstage]
  · intro reply names m hcall hnames hrecall
    have hstage1 : analyze_ingredients (files.map encode_image_to_base64) chatVision =
        (.ok (parseIngredientsResponse reply),
         [.ingredients (buildIngredientsContent (files.map encode_image_to_base64))]) := by
      unfold analyze_ingredients
      rw [hcall]
    have hstage2 : generate_recipes (parseIngredientsResponse reply) chatText =
        (.error ("Failed to generate recipes: " ++ m),
         [.recipes (buildRecipePrompt (String.intercalate ", " names))]) := by
      unfold generate_recipes
      simp only [hnames, hrecall]
    constructor
    · rw [hstage2]
    · simp [hred, hstage1, hstage2]

/-- C8 witness: with one valid JPEG and a vision call that raises `boom`,
the handler answers 500 with the wrapped message and exactly the one
failed call was made. -/
theorem C8_call_failure_wrapped_and_surfaced_witness :
    analyze_images ⟨true, 10485760⟩ (fun _ => true) (fun _ => Except.error "boom")
      (fun _ => Except.ok "[]") [⟨"a.jpg", 3, "image/jpeg", [255, 216, 255]⟩] =
      (.serverError ("Analysis failed: " ++ ("Failed to analyze images: " ++ "boom")),
       [.ingredients (buildIngredientsContent
         ([⟨"a.jpg", 3, "image/jpeg", [255, 216, 255]⟩].map encode_image_to_base64))]) :=
  ((C8_call_failure_wrapped_and_surfaced ⟨true, 10485760⟩ (fun _ => true)
    (fun _ => Except.error "boom") (fun _ => Except.ok "[]")
    [⟨"a.jpg", 3, "image/jpeg", [255, 216, 255]⟩]
    rfl (by decide) (by decide) (by decide)).1 "boom" rfl).2

/-- C10: whenever the handler reaches the ingredient stage, the single
multimodal request it builds labels every image payload with the fixed
`image/jpeg` MIME type in its data URL, whatever the declared content
types of the uploads were. -/
theorem C10_images_labeled_jpeg (s : Settings) (pilVerify : List Nat → Bool)
    (chatVision : List ContentPart → Except String String)
    (chatText : String → Except String String) (files : List UploadedFile)
    (hkey : s.OPENAI_API_KEY = true) (hne : files ≠ [])
    (hval : ∀ f ∈ files, (validate_image s.MAX_UPLOAD_SIZE pilVerify f 0).1 = true)
    (hcnt : files.length ≤ 3) :
    (analyze_images s pilVerify chatVision chatText files).2.head? =
      some (.ingredients (buildIngredientsContent (files.map encode_image_to_base64))) ∧
    ∀ f ∈ files,
      ContentPart.image_url ("data:image/jpeg;base64," ++ encode_image_to_base64 f) ∈
        buildIngredientsContent (files.map encode_image_to_base64) := by
  have hred := analyze_images_valid_setup s pilVerify chatVision chatText files
    hkey hne hval hcnt
  constructor
  · rw [hred]
    cases hA : analyze_ingredients (files.map encode_image_to_base64) chatVision with
    | mk res calls1 =>
      have hc1 : calls1 =
          [.ingredients (buildIngredientsContent (files.map encode_image_to_base64))] := by
        have hs := analyze_ingredients_snd (files.map encode_image_to_base64) chatVision
        rw [hA] at hs
        exact hs
      cases res with
      | error e => simp [hc1]
      | ok ingredients =>
        cases hG : generate_recipes ingredients chatText with
        | mk res2 calls2 => cases res2 <;> simp [hc1, hG]
  · intro f hf
    unfold buildIngredientsContent
    exact List.mem_cons_of_mem _ (List.mem_map_of_mem _ (List.mem_map_of_mem _ hf))

/-- C10 witness: a validated PNG upload is sent with a
`data:image/jpeg;base64,` label. -/
theorem C10_images_labeled_jpeg_witness :
    (analyze_images ⟨true, 10485760⟩ (fun _ => true) (fun _ => Except.ok "[]")
      (fun _ => Except.ok "[]") [⟨"p.png", 3, "image/png", [137, 80, 78]⟩]).2.head? =
      some (.ingredients (buildIngredientsContent
        ([⟨"p.png", 3, "image/png", [137, 80, 78]⟩].map encode_image_to_base64))) ∧
    ContentPart.image_url
        ("data:image/jpeg;base64," ++
          encode_image_to_base64 ⟨"p.png", 3, "image/png", [137, 80, 78]⟩) ∈
      buildIngredientsContent
        ([⟨"p.png", 3, "image/png", [137, 80, 78]⟩].map encode_image_to_base64) :=
  ⟨(C10_images_labeled_jpeg ⟨true, 10485760⟩ (fun _ => true) (fun _ => Except.ok "[]")
      (fun _ => Except.ok "[]") [⟨"p.png", 3, "image/png", [137, 80, 78]⟩]
      rfl (by decide) (by decide) (by decide)).1,
   (C10_images_labeled_jpeg ⟨true, 10485760⟩ (fun _ => true) (fun _ => Except.ok "[]")
      (fun _ => Except.ok "[]") [⟨"p.png", 3, "image/png", [137, 80, 78]⟩]
      rfl (by decide) (by decide) (by decide)).2
     ⟨"p.png", 3, "image/png", [137, 80, 78]⟩ (by decide)⟩

end RecipeFinder
